import Mathlib

/-!
Shallow embedding of the logging-formatting layer of `cmdhelper.py`
(module `cmdhelper`, version 0.2.7): severity levels, the `LevelFilter`
routing predicate, the `ConsoleFormatter` and `FileFormatter` formatting
rules (including the timestamp continuation state), the `LogWriter`
stream-redirect adapter together with `MyStreamHandler`, and the
`BufferingSMTPHandler` e-mail buffer.

Machine strings are modelled as Lean `String` (a wrapper around
`List Char`), severities as `Nat` (Python's numeric log levels), and the
stateful pieces (`FileFormatter._startLine`, the e-mail buffer) as
explicit state passed in and out of the corresponding functions.
-/

namespace Cmdhelper

/-- Numeric level of `logging.DEBUG` in the host logging library. -/
def DEBUG : Nat := 10

/-- Numeric level of `logging.INFO` in the host logging library. -/
def INFO : Nat := 20

/-- `logging.STDOUT = 25`, the custom level added by `cmdhelper.py`
(line 64: `logging.STDOUT = 25`). -/
def STDOUT : Nat := 25

/-- Numeric level of `logging.WARNING`. -/
def WARNING : Nat := 30

/-- Numeric level of `logging.ERROR`. -/
def ERROR : Nat := 40

/-- Numeric level of `logging.CRITICAL`. -/
def CRITICAL : Nat := 50

/-- `logging.getLevelName` restricted to the levels registered in this
program: the six standard names plus `STDOUT` registered by
`logging.addLevelName(logging.STDOUT, 'STDOUT')`; any other number `n`
renders as `"Level n"` as in the host library. -/
def getLevelName (levelno : Nat) : String :=
  if levelno = CRITICAL then "CRITICAL"
  else if levelno = ERROR then "ERROR"
  else if levelno = WARNING then "WARNING"
  else if levelno = STDOUT then "STDOUT"
  else if levelno = INFO then "INFO"
  else if levelno = DEBUG then "DEBUG"
  else if levelno = 0 then "NOTSET"
  else "Level " ++ toString levelno

/-- A run of `n` space characters. -/
def spaces (n : Nat) : String :=
  String.mk (List.replicate n ' ')

/-- Python `'%-7s' % s`-style left-justification: pad `s` on the right
with spaces up to width `w` (no truncation). -/
def ljust (s : String) (w : Nat) : String :=
  s ++ spaces (w - s.length)

/-- Python `msg.split('\n')` on the underlying character list: the list of
chunks between newline characters, keeping empty chunks, never empty as a
list. -/
def splitNl : List Char → List (List Char)
  | [] => [[]]
  | c :: cs =>
    if c = '\n' then [] :: splitNl cs
    else
      match splitNl cs with
      | [] => [[c]]
      | s :: rest => (c :: s) :: rest

/-- The lines of a message: Python `record.getMessage().split('\n')`. -/
def splitLines (msg : String) : List String :=
  (splitNl msg.data).map String.mk

/-- Join a list of lines with newline separators: Python `'\n'.join(lines)`. -/
def joinNl : List String → String
  | [] => ""
  | [s] => s
  | s :: s2 :: rest => s ++ "\n" ++ joinNl (s2 :: rest)

/-- Python `msg[-1:] == '\n'`: whether the last character of `s` is a
newline (`false` for the empty string). -/
def lastCharIsNl (s : String) : Bool :=
  match s.data.getLast? with
  | some c => c == '\n'
  | none => false

/-- `ConsoleFormatter.format` (cmdhelper.py lines 215-228) as a pure
function of the record fields it reads: pick the format string by the
record's logger name and level, then interpolate.  A non-root record uses
`'%(levelname)-7s %(name)-30s %(message)s'`; a root record above `STDOUT`
uses `'%(levelname)s: %(message)s'`; a root `DEBUG` record uses
`'... %(message)s'`; any other root record is the bare message. -/
def ConsoleFormatter.format (name : String) (levelno : Nat) (msg : String) : String :=
  if name ≠ "root" then
    ljust (getLevelName levelno) 7 ++ " " ++ ljust name 30 ++ " " ++ msg
  else if STDOUT < levelno then
    getLevelName levelno ++ ": " ++ msg
  else if levelno = DEBUG then
    "... " ++ msg
  else
    msg

/-- `FileFormatter.format` without a timestamp format configured
(cmdhelper.py lines 267-277): a non-root record uses
`'%(levelname)s:%(name)s: %(message)s'`; a root record above `STDOUT` or
at `DEBUG` uses `'%(levelname)s: %(message)s'`; any other root record is
the bare message. -/
def FileFormatter.formatPlain (name : String) (levelno : Nat) (msg : String) : String :=
  if name ≠ "root" then
    getLevelName levelno ++ ":" ++ name ++ ": " ++ msg
  else if STDOUT < levelno ∨ levelno = DEBUG then
    getLevelName levelno ++ ": " ++ msg
  else
    msg

/-- The `STDOUT`-level branch of `FileFormatter.format` with a timestamp
format configured (cmdhelper.py lines 250-262).  `timeStamp` is the
already-formatted timestamp (`logging.Formatter.format` applied to the
timestamp format string) and `startLine` is the incoming `_startLine`
state.  The message is split on newlines; the first chunk is prefixed with
the timestamp when `startLine` holds; each later non-empty chunk is
prefixed with `len(timeStamp)` spaces; the result is rejoined and the new
`_startLine` is whether the joined output ends in a newline. -/
def FileFormatter.formatStdout (timeStamp : String) (startLine : Bool) (msg : String) :
    String × Bool :=
  let lines := splitLines msg
  let lines2 :=
    match lines with
    | [] => ([] : List String)
    | l0 :: rest =>
        (if startLine then timeStamp ++ l0 else l0)
          :: rest.map (fun l => if l.length ≠ 0 then spaces timeStamp.length ++ l else l)
  let out := joinNl lines2
  (out, lastCharIsNl out)

/-- `FileFormatter.format` with a timestamp format configured
(cmdhelper.py lines 249-266), as a function from the incoming
`_startLine` state and the record fields to the formatted output and the
outgoing `_startLine` state.  Records away from level `STDOUT` are the
timestamp followed by the message, and set `_startLine` to `True`
unconditionally. -/
def FileFormatter.format (timeStamp : String) (startLine : Bool) (levelno : Nat)
    (msg : String) : String × Bool :=
  if levelno = STDOUT then FileFormatter.formatStdout timeStamp startLine msg
  else (timeStamp ++ msg, true)

/-- `LevelFilter` (cmdhelper.py lines 280-295): a list of levels together
with a flag choosing between suppressing those levels and passing only
those levels. -/
structure LevelFilter where
  levelList : List Nat
  suppressFlag : Bool
deriving DecidableEq

/-- `LevelFilter.filter` (cmdhelper.py lines 291-295): with
`suppressFlag` the record passes exactly when its level is not in
`levelList`; without it, exactly when its level is in `levelList`
(Python's `0`/`1` return modelled as `Bool`). -/
def LevelFilter.filter (f : LevelFilter) (levelno : Nat) : Bool :=
  if f.suppressFlag then
    if levelno ∈ f.levelList then false else true
  else
    if levelno ∈ f.levelList then true else false

/-- A configured sink as the router sees it: the handler's level
threshold and its optional `LevelFilter` (each handler in
`CmdHelper.__init__` carries at most one). -/
structure Sink where
  level : Nat
  filter : Option LevelFilter
deriving DecidableEq

/-- Delivery decision of the host logging subsystem for one handler:
`Logger.callHandlers` compares `record.levelno` against the handler's
level, and `Handler.handle` then runs the attached filters.  A record is
delivered iff its level is at or above the sink's level and the attached
`LevelFilter`, if any, passes it. -/
def Sink.accepts (s : Sink) (levelno : Nat) : Bool :=
  decide (s.level ≤ levelno) &&
    match s.filter with
    | none => true
    | some f => f.filter levelno

/-- Written from the spec's words for the filter clause: the configured
filter's suppress/pass rule is satisfied for a severity (suppress mode
rejects exactly the severities in the configured set; pass mode accepts
exactly those in the set; no filter is always satisfied). -/
def filterRuleSatisfied (s : Sink) (levelno : Nat) : Prop :=
  match s.filter with
  | none => True
  | some f => if f.suppressFlag then levelno ∉ f.levelList else levelno ∈ f.levelList

/-- A log record as the handlers see it: logger name, numeric level,
message text, and the optional `terminator` attribute (`none` models
Python's `terminator=None`, i.e. suppress the trailing newline; a record
without the attribute carries the default `some "\n"`). -/
structure LogRecord where
  name : String
  levelno : Nat
  msg : String
  terminator : Option String
deriving DecidableEq

/-- `LogWriter.write` (cmdhelper.py lines 103-107): writing `text`
produces one record on the configured logger (the root logger in
`CmdHelper`) at the configured level, with `terminator` set to `None`. -/
def LogWriter.write (loglevel : Nat) (text : String) : LogRecord :=
  ⟨"root", loglevel, text, none⟩

/-- `MyStreamHandler.emit` (cmdhelper.py lines 128-141) with the
`ConsoleFormatter` attached (as `CmdHelper.__init__` configures the
console handlers): the text written to the stream is the formatted record
followed by the record's terminator, with nothing appended when the
terminator is `None`. -/
def MyStreamHandler.emit (r : LogRecord) : String :=
  ConsoleFormatter.format r.name r.levelno r.msg ++
    match r.terminator with
    | some t => t
    | none => ""

/-- `BufferingSMTPHandler` state (cmdhelper.py lines 162-173): capacity
(`maxMessagesPerEmail`), optional trigger level, the sticky `triggered`
flag, and the ordered buffer of pending records. -/
structure BufferingSMTPHandler where
  capacity : Nat
  triggerLevelNo : Option Nat
  triggered : Bool
  buffer : List LogRecord
deriving DecidableEq

/-- `BufferingSMTPHandler.__init__`: empty buffer and `triggered`
initially true exactly when no trigger level is configured
(`self.triggered = (self.triggerLevelNo is None)`). -/
def mkBufferingSMTPHandler (maxMessagesPerEmail : Nat) (triggerLevelNo : Option Nat) :
    BufferingSMTPHandler :=
  ⟨maxMessagesPerEmail, triggerLevelNo, triggerLevelNo.isNone, []⟩

/-- The trigger test in `BufferingSMTPHandler.emit`:
`self.triggerLevelNo is not None and record.levelno >= self.triggerLevelNo`. -/
def triggerHit (t : Option Nat) (r : LogRecord) : Bool :=
  match t with
  | some lvl => decide (lvl ≤ r.levelno)
  | none => false

/-- The combined e-mail body built in `BufferingSMTPHandler.flush`
(cmdhelper.py lines 190-198) with the `ConsoleFormatter` attached (as
`CmdHelper` configures the e-mail handler): each buffered record is
formatted and followed by its terminator unless the terminator is `None`,
and the pieces are concatenated. -/
def formatBufferText (buf : List LogRecord) : String :=
  match buf with
  | [] => ""
  | r :: rest =>
      (ConsoleFormatter.format r.name r.levelno r.msg ++
        match r.terminator with
        | some t => t
        | none => "") ++ formatBufferText rest

/-- `BufferingSMTPHandler.flush` (cmdhelper.py lines 181-207) with the
outcome of the SMTP transport made explicit.  When the handler is
triggered and the buffer is non-empty it attempts delivery: on transport
success the combined text is delivered and `self.buffer = []` runs; on a
transport exception control leaves `flush` before the clearing line, so
the whole state (buffer included) is returned unchanged in the `error`
branch.  When no delivery is attempted the buffer is discarded. -/
def BufferingSMTPHandler.flushWith (h : BufferingSMTPHandler) (transportOk : Bool) :
    Except BufferingSMTPHandler (BufferingSMTPHandler × Option String) :=
  if h.triggered && decide (h.buffer.length > 0) then
    if transportOk then Except.ok ({h with buffer := []}, some (formatBufferText h.buffer))
    else Except.error h
  else Except.ok ({h with buffer := []}, none)

/-- `BufferingSMTPHandler.flush` on the transport's success path: the
delivered e-mail body (if any) and the state afterwards. -/
def BufferingSMTPHandler.flush (h : BufferingSMTPHandler) :
    BufferingSMTPHandler × Option String :=
  if h.triggered && decide (h.buffer.length > 0) then
    ({h with buffer := []}, some (formatBufferText h.buffer))
  else ({h with buffer := []}, none)

/-- `BufferingSMTPHandler.emit` (cmdhelper.py lines 175-179) followed by
the inherited `BufferingHandler.emit`: set `triggered` when the record
meets the trigger level, append the record to the buffer, and flush when
the buffer has reached capacity (`shouldFlush` is
`len(self.buffer) >= self.capacity`).  The transport is taken to succeed
here; the failing transport is modelled by `flushWith` alone. -/
def BufferingSMTPHandler.emit (h : BufferingSMTPHandler) (r : LogRecord) :
    BufferingSMTPHandler × Option String :=
  let h1 := if triggerHit h.triggerLevelNo r then {h with triggered := true} else h
  let h2 := {h1 with buffer := h1.buffer ++ [r]}
  if decide (h2.buffer.length ≥ h2.capacity) then h2.flush else (h2, none)

/-- Process a list of records through `BufferingSMTPHandler.emit` in
order, collecting every e-mail body delivered along the way. -/
def runEmits : BufferingSMTPHandler → List LogRecord → BufferingSMTPHandler × List String
  | h, [] => (h, [])
  | h, r :: rs =>
      let step := h.emit r
      let rest := runEmits step.1 rs
      (rest.1, step.2.toList ++ rest.2)

/-- Written from the spec's words (section 4.3, timestamp mode): prefix
every subsequent non-empty segment with the alignment padding, and leave
empty segments (from consecutive line breaks) untouched. -/
def indentContinuation (pad : String) : List String → List String
  | [] => []
  | s :: rest => (if s = "" then s else pad ++ s) :: indentContinuation pad rest

/-- Written from the spec's words (section 4.3, timestamp mode, records at
the `STDOUT` level): split the message on embedded line breaks; prefix
the first segment with the timestamp iff the continuation state says the
previous write ended a line; prefix every subsequent non-empty segment
with spaces equal in length to the timestamp; rejoin; the new
continuation state is true iff the formatted output ends in a line
break. -/
def specFormatStdout (timeStamp : String) (startLine : Bool) (msg : String) :
    String × Bool :=
  let segs := splitLines msg
  let segs2 :=
    match segs with
    | [] => ([] : List String)
    | first :: rest =>
        (if startLine then timeStamp ++ first else first)
          :: indentContinuation (spaces timeStamp.length) rest
  let out := joinNl segs2
  (out, lastCharIsNl out)

/-- Feed a sequence of `STDOUT`-level fragments through the
timestamp-mode file formatter, threading the `_startLine` state, and
collect the formatted outputs in order. -/
def runStdoutWrites (timeStamp : String) : Bool → List String → List String × Bool
  | st, [] => ([], st)
  | st, m :: ms =>
      let r := FileFormatter.formatStdout timeStamp st m
      let rest := runStdoutWrites timeStamp r.2 ms
      (r.1 :: rest.1, rest.2)

theorem string_length_eq_zero (s : String) : s.length = 0 ↔ s = "" := by
  rw [String.ext_iff]
  simp only [String.length, List.length_eq_zero]

theorem map_indent_eq_indentContinuation (pad : String) (l : List String) :
    l.map (fun s => if s.length ≠ 0 then pad ++ s else s) = indentContinuation pad l := by
  induction l with
  | nil => rfl
  | cons s rest ih =>
    simp only [List.map, indentContinuation, ih]
    congr 1
    by_cases h : s = ""
    · subst h
      simp
    · have hl : s.length ≠ 0 := fun hc => h ((string_length_eq_zero s).mp hc)
      simp [h, hl]

/-- C1: with a timestamp format configured, formatting an `STDOUT`-level
record splits the message on line breaks, prefixes the first segment with
the timestamp iff the continuation state says the previous output ended a
line, prefixes every subsequent non-empty segment with spaces of the
timestamp's length (empty segments get no padding), and leaves the
continuation state true iff the output ends in a line break (stated as
equality with the spec-side transcription `specFormatStdout` for all
inputs); in particular the fragments `"abc"`, `"def\n"`, `"ghi"` yield
one timestamp before `"abc"`, none before `"def"`, a fresh one before
`"ghi"`; and `"line1\nline2\n\nline3"` yields the timestamp on `line1`,
space-padding on `line2` and `line3`, nothing before the empty segment,
and continuation state false. -/
theorem C1_stdout_timestamp_continuation :
    (∀ (timeStamp : String) (startLine : Bool) (msg : String),
        FileFormatter.formatStdout timeStamp startLine msg
          = specFormatStdout timeStamp startLine msg)
    ∧ runStdoutWrites "[TS] " true ["abc", "def\n", "ghi"]
        = (["[TS] abc", "def\n", "[TS] ghi"], false)
    ∧ FileFormatter.formatStdout "[TS] " true "line1\nline2\n\nline3"
        = ("[TS] line1\n     line2\n\n     line3", false) := by
  refine ⟨fun ts st msg => ?_, by decide, by decide⟩
  simp only [FileFormatter.formatStdout, specFormatStdout,
    map_indent_eq_indentContinuation]

/-- C2 counterexample: the custom `STDOUT` level (25) is not strictly
below `INFO` (20), so the claimed order `DEBUG < STDOUT < INFO` fails on
the code. -/
theorem C2_counterexample_stdout_not_below_info : ¬ (STDOUT < INFO) := by decide

/-- C2 amended: the severity ordering is total and fixed, but the custom
`STDOUT` level sits strictly between `INFO` and `WARNING`:
`DEBUG < INFO < STDOUT < WARNING < ERROR < CRITICAL`. -/
theorem C2_severity_order_amended :
    DEBUG < INFO ∧ INFO < STDOUT ∧ STDOUT < WARNING ∧ WARNING < ERROR ∧
      ERROR < CRITICAL := by
  decide

/-- C4: the console formatter applies its rules in order: a non-root
record formats as padded LEVEL/SOURCE/MESSAGE (level left-justified in 7
columns, source in 30); otherwise a record above the custom `STDOUT`
level formats as `LEVEL: MESSAGE`; otherwise a `DEBUG` record formats as
`... MESSAGE`; every other record is the bare message.  In particular a
root `DEBUG` record renders as `"... message"` and a root `WARNING`
record as `"WARNING: message"`. -/
theorem C4_console_formatter_rules :
    (∀ (name : String) (levelno : Nat) (msg : String), name ≠ "root" →
        ConsoleFormatter.format name levelno msg
          = ljust (getLevelName levelno) 7 ++ " " ++ ljust name 30 ++ " " ++ msg)
    ∧ (∀ (levelno : Nat) (msg : String), STDOUT < levelno →
        ConsoleFormatter.format "root" levelno msg = getLevelName levelno ++ ": " ++ msg)
    ∧ (∀ msg : String, ConsoleFormatter.format "root" DEBUG msg = "... " ++ msg)
    ∧ (∀ (levelno : Nat) (msg : String), levelno ≤ STDOUT → levelno ≠ DEBUG →
        ConsoleFormatter.format "root" levelno msg = msg)
    ∧ ConsoleFormatter.format "root" DEBUG "message" = "... message"
    ∧ ConsoleFormatter.format "root" WARNING "message" = "WARNING: message" := by
  refine ⟨fun name levelno msg h => ?_, fun levelno msg h => ?_, fun msg => ?_,
    fun levelno msg h1 h2 => ?_, by decide, by decide⟩
  · simp [ConsoleFormatter.format, h]
  · simp [ConsoleFormatter.format, h]
  · simp [ConsoleFormatter.format, STDOUT, DEBUG]
  · simp [ConsoleFormatter.format, h2, Nat.not_lt.mpr h1]

/-- C4 witness: the rules of `C4_console_formatter_rules` applied at
concrete records. -/
theorem C4_console_formatter_rules_witness :
    ConsoleFormatter.format "worker" WARNING "m"
        = ljust (getLevelName WARNING) 7 ++ " " ++ ljust "worker" 30 ++ " " ++ "m"
    ∧ ConsoleFormatter.format "root" ERROR "m" = getLevelName ERROR ++ ": " ++ "m"
    ∧ ConsoleFormatter.format "root" INFO "m" = "m" :=
  ⟨C4_console_formatter_rules.1 "worker" WARNING "m" (by decide),
   C4_console_formatter_rules.2.1 ERROR "m" (by decide),
   C4_console_formatter_rules.2.2.2.1 INFO "m" (by decide) (by decide)⟩

/-- C6 counterexample: with a timestamp configured, formatting a root
`INFO` record with message `"x"` produces output not ending in a line
break, yet the continuation state is set true — so the state is not
computed from the formatted output for non-`STDOUT` records. -/
theorem C6_counterexample_info_record :
    (FileFormatter.format "[TS] " false INFO "x").2 = true
    ∧ lastCharIsNl (FileFormatter.format "[TS] " false INFO "x").1 = false := by
  decide

/-- C6 amended: after formatting an `STDOUT`-level record the
continuation state is true iff the formatted output ends in a line break;
after a record of any other severity the state is set true
unconditionally (resetting it so the next `STDOUT`-level write starts a
fresh line), regardless of whether the formatted output ends a line. -/
theorem C6_continuation_state_amended :
    (∀ (timeStamp : String) (startLine : Bool) (msg : String),
        (FileFormatter.format timeStamp startLine STDOUT msg).2
          = lastCharIsNl (FileFormatter.format timeStamp startLine STDOUT msg).1)
    ∧ (∀ (timeStamp : String) (startLine : Bool) (levelno : Nat) (msg : String),
        levelno ≠ STDOUT →
        (FileFormatter.format timeStamp startLine levelno msg).2 = true) := by
  constructor
  · intro ts st msg
    rfl
  · intro ts st lvl msg h
    simp [FileFormatter.format, h]

/-- C6 witness: `C6_continuation_state_amended` applied at a concrete
non-`STDOUT` record. -/
theorem C6_continuation_state_amended_witness :
    (FileFormatter.format "[TS] " false WARNING "x").2 = true :=
  C6_continuation_state_amended.2 "[TS] " false WARNING "x" (by decide)

/-- C9: writing `"hello"` then `"\n"` through the stream-redirect adapter
produces two records at the custom `STDOUT` severity, each with the
line-terminator suppressed, and the concatenation of their formatted
console output (non-timestamp mode, root logger) is exactly
`"hello\n"`. -/
theorem C9_redirector_roundtrip :
    (LogWriter.write STDOUT "hello").levelno = STDOUT
    ∧ (LogWriter.write STDOUT "\n").levelno = STDOUT
    ∧ (LogWriter.write STDOUT "hello").terminator = none
    ∧ (LogWriter.write STDOUT "\n").terminator = none
    ∧ MyStreamHandler.emit (LogWriter.write STDOUT "hello")
        ++ MyStreamHandler.emit (LogWriter.write STDOUT "\n") = "hello\n" := by
  decide

/-- C3: a record strictly below a sink's threshold is never delivered to
it (whatever filter is attached); a record at or above the threshold of a
sink with no filter always is; and in general a sink accepts a record iff
the record's severity is at or above the sink's threshold and the
configured level filter's suppress/pass rule is satisfied for that
severity. -/
theorem C3_sink_threshold_and_filter :
    (∀ (sink : Sink) (s1 : Nat), s1 < sink.level → sink.accepts s1 = false)
    ∧ (∀ (sink : Sink) (s : Nat), sink.filter = none → sink.level ≤ s →
        sink.accepts s = true)
    ∧ (∀ (sink : Sink) (s : Nat),
        sink.accepts s = true ↔ (sink.level ≤ s ∧ filterRuleSatisfied sink s)) := by
  refine ⟨fun sink s1 h => ?_, fun sink s hf h => ?_, fun sink s => ?_⟩
  · have hn : ¬ (sink.level ≤ s1) := Nat.not_le.mpr h
    simp [Sink.accepts, hn]
  · simp [Sink.accepts, hf, h]
  · cases hf : sink.filter with
    | none => simp [Sink.accepts, filterRuleSatisfied, hf]
    | some f =>
      by_cases hs : f.suppressFlag <;> by_cases hm : s ∈ f.levelList <;>
        simp [Sink.accepts, filterRuleSatisfied, LevelFilter.filter, hf, hs, hm]

/-- C3 witness: `C3_sink_threshold_and_filter` applied to the two console
sinks configured by `CmdHelper.__init__` (threshold `STDOUT` with a
pass-filter on `[STDOUT]`, and threshold `STDOUT` with a suppress-filter
on `[STDOUT]`) and to a filterless sink. -/
theorem C3_sink_threshold_and_filter_witness :
    Sink.accepts ⟨STDOUT, some ⟨[STDOUT], true⟩⟩ INFO = false
    ∧ Sink.accepts ⟨STDOUT, none⟩ WARNING = true
    ∧ (Sink.accepts ⟨STDOUT, some ⟨[STDOUT], false⟩⟩ STDOUT = true
        ↔ (STDOUT ≤ STDOUT
            ∧ filterRuleSatisfied ⟨STDOUT, some ⟨[STDOUT], false⟩⟩ STDOUT)) :=
  ⟨C3_sink_threshold_and_filter.1 ⟨STDOUT, some ⟨[STDOUT], true⟩⟩ INFO (by decide),
   C3_sink_threshold_and_filter.2.1 ⟨STDOUT, none⟩ WARNING rfl (by decide),
   C3_sink_threshold_and_filter.2.2 ⟨STDOUT, some ⟨[STDOUT], false⟩⟩ STDOUT⟩

/-- C5 counterexample: without a timestamp format, a `WARNING` record
from the non-root source `"worker"` is formatted by the file formatter as
`"WARNING:worker: m"` — colon-separated with no fixed-width padding —
which differs from the console formatter's padded layout for the same
record, so the file formatter does not use the same LEVEL/SOURCE layout
rules. -/
theorem C5_counterexample_file_plain_layout :
    FileFormatter.formatPlain "worker" WARNING "m" = "WARNING:worker: m"
    ∧ FileFormatter.formatPlain "worker" WARNING "m"
        ≠ ConsoleFormatter.format "worker" WARNING "m" := by
  decide

/-- C5 amended: without a timestamp format, the file formatter formats a
record from a non-root source as `LEVEL:SOURCE: MESSAGE` (unpadded,
colon-separated, unlike the console formatter's fixed-width layout); a
root record above the custom `STDOUT` level or at `DEBUG` formats as
`LEVEL: MESSAGE`; and any other root record — in particular plain
`STDOUT`-level output — is the unprefixed message. -/
theorem C5_file_plain_rules_amended :
    (∀ (name : String) (levelno : Nat) (msg : String), name ≠ "root" →
        FileFormatter.formatPlain name levelno msg
          = getLevelName levelno ++ ":" ++ name ++ ": " ++ msg)
    ∧ (∀ (levelno : Nat) (msg : String), STDOUT < levelno ∨ levelno = DEBUG →
        FileFormatter.formatPlain "root" levelno msg = getLevelName levelno ++ ": " ++ msg)
    ∧ (∀ msg : String, FileFormatter.formatPlain "root" STDOUT msg = msg)
    ∧ (∀ (levelno : Nat) (msg : String), levelno ≤ STDOUT → levelno ≠ DEBUG →
        FileFormatter.formatPlain "root" levelno msg = msg) := by
  refine ⟨fun name lvl msg h => ?_, fun lvl msg h => ?_, fun msg => ?_,
    fun lvl msg h1 h2 => ?_⟩
  · simp [FileFormatter.formatPlain, h]
  · simp [FileFormatter.formatPlain, h]
  · simp [FileFormatter.formatPlain, STDOUT, DEBUG]
  · have hno : ¬ (STDOUT < lvl ∨ lvl = DEBUG) := by
      push_neg
      exact ⟨h1, h2⟩
    simp [FileFormatter.formatPlain, hno]

/-- C5 witness: `C5_file_plain_rules_amended` applied at concrete
records. -/
theorem C5_file_plain_rules_amended_witness :
    FileFormatter.formatPlain "worker" ERROR "m"
        = getLevelName ERROR ++ ":" ++ "worker" ++ ": " ++ "m"
    ∧ FileFormatter.formatPlain "root" DEBUG "m" = getLevelName DEBUG ++ ": " ++ "m"
    ∧ FileFormatter.formatPlain "root" INFO "m" = "m" :=
  ⟨C5_file_plain_rules_amended.1 "worker" ERROR "m" (by decide),
   C5_file_plain_rules_amended.2.1 DEBUG "m" (by decide),
   C5_file_plain_rules_amended.2.2.2 INFO "m" (by decide) (by decide)⟩

theorem flush_sends_iff (h : BufferingSMTPHandler) :
    (h.flush).2.isSome = (h.triggered && decide (h.buffer.length > 0))
    ∧ (h.flush).1.buffer = ([] : List LogRecord)
    ∧ (h.flush).1.triggered = h.triggered := by
  unfold BufferingSMTPHandler.flush
  cases hc : (h.triggered && decide (h.buffer.length > 0)) <;> simp [hc]

theorem emit_state (h : BufferingSMTPHandler) (r : LogRecord) :
    (h.emit r).1.triggered = (h.triggered || triggerHit h.triggerLevelNo r)
    ∧ (h.emit r).1.capacity = h.capacity
    ∧ (h.emit r).1.triggerLevelNo = h.triggerLevelNo := by
  unfold BufferingSMTPHandler.emit BufferingSMTPHandler.flush
  cases ht : triggerHit h.triggerLevelNo r <;> simp [ht] <;>
    split_ifs <;> simp

theorem runEmits_state (rs : List LogRecord) : ∀ h : BufferingSMTPHandler,
    (runEmits h rs).1.triggered
        = (h.triggered || rs.any (fun r => triggerHit h.triggerLevelNo r))
    ∧ (runEmits h rs).1.capacity = h.capacity
    ∧ (runEmits h rs).1.triggerLevelNo = h.triggerLevelNo := by
  induction rs with
  | nil => intro h; simp [runEmits]
  | cons r rs ih =>
    intro h
    obtain ⟨e1, e2, e3⟩ := emit_state h r
    obtain ⟨i1, i2, i3⟩ := ih (h.emit r).1
    refine ⟨?_, ?_, ?_⟩
    · show (runEmits (h.emit r).1 rs).1.triggered = _
      rw [i1, e1, e3, List.any_cons, Bool.or_assoc]
    · show (runEmits (h.emit r).1 rs).1.capacity = _
      rw [i2, e2]
    · show (runEmits (h.emit r).1 rs).1.triggerLevelNo = _
      rw [i3, e3]

/-- C7: a flush of the buffering e-mail sink delivers iff the handler is
triggered and the buffer is non-empty, in which case all buffered records
go out as one combined message; the handler is triggered iff no trigger
level is configured or some record at or above the trigger level has been
observed; and in particular with trigger level `WARNING` and capacity 3,
two `INFO` records followed by a flush deliver nothing while two `INFO`
records plus one `WARNING` deliver all three as one combined message
(`"a\nb\nWARNING: c\n"`). -/
theorem C7_email_flush_trigger :
    (∀ h : BufferingSMTPHandler,
        (h.flush).2.isSome = (h.triggered && decide (h.buffer.length > 0)))
    ∧ (∀ h : BufferingSMTPHandler, h.triggered = true → h.buffer ≠ [] →
        (h.flush).2 = some (formatBufferText h.buffer))
    ∧ (∀ (cap : Nat) (rs : List LogRecord),
        (runEmits (mkBufferingSMTPHandler cap none) rs).1.triggered = true)
    ∧ (∀ (cap t : Nat) (rs : List LogRecord),
        (runEmits (mkBufferingSMTPHandler cap (some t)) rs).1.triggered
          = rs.any (fun r => decide (t ≤ r.levelno)))
    ∧ (runEmits (mkBufferingSMTPHandler 3 (some WARNING))
          [⟨"root", INFO, "a", some "\n"⟩, ⟨"root", INFO, "b", some "\n"⟩]).2 = []
    ∧ ((runEmits (mkBufferingSMTPHandler 3 (some WARNING))
          [⟨"root", INFO, "a", some "\n"⟩, ⟨"root", INFO, "b", some "\n"⟩]).1.flush).2
        = none
    ∧ (runEmits (mkBufferingSMTPHandler 3 (some WARNING))
          [⟨"root", INFO, "a", some "\n"⟩, ⟨"root", INFO, "b", some "\n"⟩,
           ⟨"root", WARNING, "c", some "\n"⟩]).2
        = [formatBufferText
            [⟨"root", INFO, "a", some "\n"⟩, ⟨"root", INFO, "b", some "\n"⟩,
             ⟨"root", WARNING, "c", some "\n"⟩]]
    ∧ formatBufferText
          [⟨"root", INFO, "a", some "\n"⟩, ⟨"root", INFO, "b", some "\n"⟩,
           ⟨"root", WARNING, "c", some "\n"⟩] = "a\nb\nWARNING: c\n" := by
  refine ⟨fun h => (flush_sends_iff h).1, fun h ht hb => ?_, fun cap rs => ?_,
    fun cap t rs => ?_, by decide, by decide, by decide, by decide⟩
  · have hlen : 0 < h.buffer.length := List.length_pos.mpr hb
    unfold BufferingSMTPHandler.flush
    simp [ht, hlen]
  · rw [(runEmits_state rs _).1]
    simp [mkBufferingSMTPHandler, triggerHit]
  · rw [(runEmits_state rs _).1]
    simp [mkBufferingSMTPHandler, triggerHit]

/-- C7 witness: `C7_email_flush_trigger` applied at a concrete triggered
handler with a non-empty buffer. -/
theorem C7_email_flush_trigger_witness :
    (BufferingSMTPHandler.flush
        ⟨8192, some WARNING, true, [⟨"root", WARNING, "w", some "\n"⟩]⟩).2
      = some (formatBufferText [⟨"root", WARNING, "w", some "\n"⟩]) :=
  C7_email_flush_trigger.2.1
    ⟨8192, some WARNING, true, [⟨"root", WARNING, "w", some "\n"⟩]⟩ rfl (by decide)

/-- C8 counterexample: a triggered handler holding one record whose
transport call fails leaves `flush` through the exception path with the
buffer still holding that record — the buffer is not cleared on delivery
failure. -/
theorem C8_counterexample_failed_delivery_keeps_buffer :
    BufferingSMTPHandler.flushWith
        ⟨8192, some WARNING, true, [⟨"root", WARNING, "boom", some "\n"⟩]⟩ false
      = Except.error ⟨8192, some WARNING, true, [⟨"root", WARNING, "boom", some "\n"⟩]⟩
    ∧ (⟨8192, some WARNING, true, [⟨"root", WARNING, "boom", some "\n"⟩]⟩ :
        BufferingSMTPHandler).buffer ≠ [] :=
  ⟨rfl, by decide⟩

/-- C8 amended: the buffer is cleared when the transport call succeeds
(and on any flush that attempts no delivery), but when the transport call
raises, the exception propagates out of `flush` before the clearing
statement and the handler state — buffer included — is left unchanged. -/
theorem C8_flush_buffer_clearing_amended :
    (∀ (h : BufferingSMTPHandler) (res : BufferingSMTPHandler × Option String),
        h.flushWith true = Except.ok res → res.1.buffer = [])
    ∧ (∀ h : BufferingSMTPHandler, h.flushWith true = Except.ok h.flush)
    ∧ (∀ (h h2 : BufferingSMTPHandler), h.flushWith false = Except.error h2 → h2 = h) := by
  refine ⟨fun h res hres => ?_, fun h => ?_, fun h h2 hres => ?_⟩
  · unfold BufferingSMTPHandler.flushWith at hres
    split at hres
    · simp only [if_true] at hres
      simp only [Except.ok.injEq] at hres
      rw [← hres]
    · simp only [Except.ok.injEq] at hres
      rw [← hres]
  · unfold BufferingSMTPHandler.flushWith BufferingSMTPHandler.flush
    split <;> simp
  · unfold BufferingSMTPHandler.flushWith at hres
    split at hres
    · simp only [Bool.false_eq_true, if_false, Except.error.injEq] at hres
      exact hres.symm
    · simp at hres


/-- C8 witness: `C8_flush_buffer_clearing_amended` applied at a concrete
triggered handler, with the successful-transport equation discharged by
the theorem itself and the failing-transport equation by `rfl`. -/
theorem C8_flush_buffer_clearing_amended_witness :
    (BufferingSMTPHandler.flush
        ⟨8192, some WARNING, true, [⟨"root", WARNING, "w", some "\n"⟩]⟩).1.buffer
      = ([] : List LogRecord)
    ∧ (⟨8192, some WARNING, true, [⟨"root", WARNING, "w", some "\n"⟩]⟩ :
          BufferingSMTPHandler)
        = ⟨8192, some WARNING, true, [⟨"root", WARNING, "w", some "\n"⟩]⟩ :=
  ⟨C8_flush_buffer_clearing_amended.1
      ⟨8192, some WARNING, true, [⟨"root", WARNING, "w", some "\n"⟩]⟩ _
      (C8_flush_buffer_clearing_amended.2.1
        ⟨8192, some WARNING, true, [⟨"root", WARNING, "w", some "\n"⟩]⟩),
   C8_flush_buffer_clearing_amended.2.2
      ⟨8192, some WARNING, true, [⟨"root", WARNING, "w", some "\n"⟩]⟩
      ⟨8192, some WARNING, true, [⟨"root", WARNING, "w", some "\n"⟩]⟩ rfl⟩

/-- C10: the trigger flag is sticky — starting from a triggered handler,
emitting any further records (however far below the trigger level) keeps
the handler triggered, flushing keeps it triggered, and a flush on a
non-empty buffer delivers. -/
theorem C10_trigger_never_reset :
    ∀ (h : BufferingSMTPHandler) (rs : List LogRecord),
      h.triggered = true →
      ((runEmits h rs).1.triggered = true
        ∧ ((runEmits h rs).1.flush).1.triggered = true
        ∧ ((runEmits h rs).1.buffer ≠ [] →
            ((runEmits h rs).1.flush).2.isSome = true)) := by
  intro h rs ht
  have h1 := (runEmits_state rs h).1
  rw [ht] at h1
  simp only [Bool.true_or] at h1
  refine ⟨h1, ?_, fun hb => ?_⟩
  · rw [(flush_sends_iff _).2.2, h1]
  · rw [(flush_sends_iff _).1, h1]
    simp [List.length_pos.mpr hb]

/-- C10 witness: `C10_trigger_never_reset` applied at a triggered handler
that then receives only a record below the trigger level. -/
theorem C10_trigger_never_reset_witness :
    ((runEmits ⟨8192, some WARNING, true, []⟩
        [⟨"root", INFO, "x", some "\n"⟩]).1.flush).2.isSome = true :=
  (C10_trigger_never_reset ⟨8192, some WARNING, true, []⟩
      [⟨"root", INFO, "x", some "\n"⟩] rfl).2.2 (by decide)

end Cmdhelper
